import Mathlib

/-!
Verification of the temporal module of `pyactr` (`src/pyactr/temporal.py`),
a shallow embedding of the `TemporalBuffer` class and the `tick` generator,
based on Taatgen, van Rijn & Anderson (2007).

Conventions of the embedding:
* machine floats become exact rationals `ℚ`;
* the random logistic draw `np.random.default_rng().logistic(loc 0, scale s)`
  is modelled as `s * ε` where `ε` is a sample of the standard logistic
  distribution supplied by an oracle stream `ε : ℕ → ℚ` (the scale family
  identity for the logistic distribution; the draw may be any real, and is
  exactly `0` when `s = 0`);
* the generator `tick` is modelled as a fuel-indexed step function producing
  the list of emitted events together with a status; external clearing of the
  buffer slot between two resumptions is expressed by a `clearAt` parameter
  saying during which suspension (if any) the resuming environment empties
  the slot;
* fallible Python methods become `Except ACTRError _`.

Collaborator code that lives outside `src/` (`pyactr.buffers`,
`pyactr.utilities`, `pyactr.chunks`) is modelled from the spec where it
decides a property; each such definition carries a doc comment starting
with `Modelled from the spec:`.
-/

/-- `utilities.ACTRError`: the architecture-wide error type, carrying a message. -/
structure ACTRError where
  msg : String
deriving DecidableEq, Repr

/-- Modelled from the spec: `utilities.TEMPORAL` (outside src/), the reserved
type tag identifying a record as a temporal record. -/
def TEMPORAL : String := "temporal"

/-- `chunks.Chunk`: a typed attribute-value record.  Attribute values are kept
as the strings their `.values` projection exposes (the only way `temporal.py`
inspects them). -/
structure Chunk where
  typename : String
  slots : List (String × String)
deriving DecidableEq, Repr

/-- `utilities.Event`: the named tuple `(time, proc, action)` emitted to the
scheduler. -/
structure Event where
  time : ℚ
  proc : String
  action : String
deriving DecidableEq, Repr

/-- Modelled from the spec: `utilities.roundtime` (outside src/) rounds an
event time to the simulation's time resolution, taken as 10⁻⁴ seconds. -/
def roundtime (t : ℚ) : ℚ := (Int.floor (t * 10000 + 1/2) : ℚ) / 10000

/-- Modelled from the spec: a declarative-memory store object.  `possible`
says whether the object is acceptable as a declarative memory (the base
buffer's harvest-target check, outside src/); `items` is the store's content,
recording each `add(record, time)` call it received. -/
structure DM where
  possible : Bool
  items : List (Chunk × ℚ)
deriving DecidableEq, Repr

/-- `TemporalBuffer`: the buffer state.  `start`, `mult`, `noise` are the
fields set by `__init__` from `time_start`, `time_mult`, `time_noise`;
`_data` is the single slot inherited from `buffers.Buffer` (a set holding at
most one chunk, hence an `Option`); `dm` is the default-harvest declarative
memory. -/
structure TemporalBuffer where
  start : ℚ
  mult : ℚ
  noise : ℚ
  _data : Option Chunk
  dm : DM
deriving DecidableEq, Repr

namespace TemporalBuffer

/-- `TemporalBuffer.__init__(time_start, time_mult, time_noise, default_harvest)`:
stores the three timing parameters and starts with an empty slot.  The source
performs no validation of the parameters. -/
def init (time_start time_mult time_noise : ℚ) (default_harvest : DM) :
    TemporalBuffer :=
  { start := time_start, mult := time_mult, noise := time_noise,
    _data := none, dm := default_harvest }

/-- `TemporalBuffer.__bool__`: always `True`, "making sure object evaluates
as True even when empty". -/
def bool' (_ : TemporalBuffer) : Bool := true

/-- `default_harvest` property getter: returns `self.dm`. -/
def default_harvest (b : TemporalBuffer) : DM := b.dm

/-- `default_harvest` property setter.  Modelled from the spec for the part
outside src/: the base buffer's `dm` assignment rejects (with `ValueError`) a
target incompatible with being a declarative memory store; `temporal.py`
catches that and re-raises `ACTRError`. -/
def set_default_harvest (b : TemporalBuffer) (value : DM) :
    Except ACTRError TemporalBuffer :=
  if value.possible then
    Except.ok { b with dm := value }
  else
    Except.error ⟨"The default harvest set in the temporal buffer is not a possible declarative memory"⟩

/-- `TemporalBuffer.clear(time)`: if the slot holds a chunk, pop it and hand
it to `self.dm.add(chunk, time)`; otherwise do nothing. -/
def clear (b : TemporalBuffer) (time : ℚ) : TemporalBuffer :=
  match b._data with
  | some c =>
      { b with _data := none, dm := { b.dm with items := b.dm.items ++ [(c, time)] } }
  | none => b

/-- Modelled from the spec: the base buffer's insertion primitive
(`buffers.Buffer.add`, outside src/) "itself harvests any previously occupied
slot into memory before accepting the new record"; the harvest happens at the
default time 0.  `TemporalBuffer.add` just delegates to it. -/
def add (b : TemporalBuffer) (elem : Chunk) : TemporalBuffer :=
  { b.clear 0 with _data := some elem }

/-- Association-list lookup standing for the Python `dict` operations
`"time" in mod_attr_val` and `mod_attr_val["time"]`. -/
def lookupAttr (mav : List (String × String)) (a : String) : Option String :=
  (mav.find? (fun p => p.1 = a)).map Prod.snd

/-- `TemporalBuffer.create(otherchunk, actrvariables)`, from the point where
`mod_attr_val` has been computed.  Variable resolution and the discarding of
unused attributes (lines 73-77, delegated to `chunks`/`utilities`, outside
src/) are abstracted by taking the already-resolved attribute-value dict
`mod_attr_val` as the argument; the validation, the construction of the new
chunk and the insertion are exactly lines 79-86 of the source. -/
def create (b : TemporalBuffer) (mod_attr_val : List (String × String)) :
    Except ACTRError TemporalBuffer :=
  if mod_attr_val.length > 1 ∨ lookupAttr mod_attr_val "time" = none then
    Except.error ⟨"Chunks in the temporal buffer must specify the attribute time and nothing else"⟩
  else if lookupAttr mod_attr_val "time" ≠ some "0" then
    Except.error ⟨"The temporal buffer must begin counting at 0"⟩
  else
    Except.ok (b.add (Chunk.mk TEMPORAL mod_attr_val))

/-- `TemporalBuffer.retrieve(otherchunk, actrvariables)`: unconditionally
raises; were it to return, it would return the retrieved chunk and the
(unchanged) buffer. -/
def retrieve (b : TemporalBuffer) (otherchunk : Chunk) :
    Except ACTRError (Chunk × TemporalBuffer) :=
  Except.error ⟨"An attempt to retrieve the chunk " ++ toString (repr otherchunk) ++ " from temporal; retrieving from temporal is not possible"⟩

end TemporalBuffer

/-- `logistic_noise(s)`: one draw from a logistic distribution with location 0
and scale `s`.  By the scale-family identity this is `s * ε` for a standard
logistic sample `ε` supplied by the oracle. -/
def logistic_noise (ε : ℚ) (s : ℚ) : ℚ := s * ε

/-- Status in which a (fuel-bounded) run of the `tick` generator ends. -/
inductive TickStatus where
  /-- Fuel ran out while the generator was still live. -/
  | running : TickStatus
  /-- The `while self._data` guard found the slot empty. -/
  | notOccupied : TickStatus
  /-- The tick-advance (`self.modify`) targeted a slot emptied between two
  resumptions.  Modelled from the spec: this stale write is reported as a
  non-fatal warning and the run terminates cleanly (spec §4.3 step 4, §7);
  `buffers.Buffer.modify` and the catch live outside src/. -/
  | staleWrite : TickStatus
deriving DecidableEq, Repr

/-- The body of `TemporalBuffer.tick(time)`, as a fuel-indexed interpreter of
the generator.  `ε` is the standard-logistic oracle (draw number `n` is
`ε n`; the loop makes exactly one draw per iteration, at tick count `n`);
`clearAt = some k` means the resuming environment clears the slot during the
suspension that follows the emission of event `k`; `tickcount`, `lag` and
`slot` are the loop state (`lag` is dead until the first iteration sets it;
`slot` is `self._data`). -/
def tickAux (start mult noisescale time : ℚ) (ε : ℕ → ℚ) (clearAt : Option ℕ) :
    ℕ → ℕ → ℚ → Option Chunk → List Event × TickStatus
  | 0, _, _, _ => ([], TickStatus.running)
  | fuel + 1, tickcount, prevLag, slot =>
    match slot with
    | none => ([], TickStatus.notOccupied)
    | some _ =>
      let lag :=
        if tickcount = 0 then
          start + logistic_noise (ε 0) (noisescale * 5 * start)
        else
          mult * prevLag + logistic_noise (ε tickcount) (noisescale * mult * prevLag)
      let e : Event :=
        ⟨roundtime (time + lag), "TEMPORAL", "TEMPORAL TICK: " ++ toString tickcount⟩
      match (if clearAt = some tickcount then none else slot : Option Chunk) with
      | none => ([e], TickStatus.staleWrite)
      | some _ =>
        let slot' := some (Chunk.mk TEMPORAL [("time", toString tickcount)])
        let r := tickAux start mult noisescale time ε clearAt fuel (tickcount + 1) lag slot'
        (e :: r.1, r.2)

/-- `TemporalBuffer.tick(time)` run for at most `fuel` loop iterations. -/
def TemporalBuffer.tick (b : TemporalBuffer) (time : ℚ) (ε : ℕ → ℚ)
    (clearAt : Option ℕ) (fuel : ℕ) : List Event × TickStatus :=
  tickAux b.start b.mult b.noise time ε clearAt fuel 0 0 b._data

/-- The successive values taken by the `lag` variable of `tick` (lines
94-97): `lag₀ = start + noise(noise·5·start)` and
`lagₙ₊₁ = mult·lagₙ + noise(noise·mult·lagₙ)`. -/
def lags (start mult noisescale : ℚ) (ε : ℕ → ℚ) : ℕ → ℚ
  | 0 => start + logistic_noise (ε 0) (noisescale * 5 * start)
  | n + 1 =>
      mult * lags start mult noisescale ε n +
        logistic_noise (ε (n + 1)) (noisescale * mult * lags start mult noisescale ε n)

/-- The event that `tick` emits at tick count `n`. -/
def tickEvent (start mult noisescale time : ℚ) (ε : ℕ → ℚ) (n : ℕ) : Event :=
  ⟨roundtime (time + lags start mult noisescale ε n), "TEMPORAL",
    "TEMPORAL TICK: " ++ toString n⟩

/-! ### Concrete fixtures used by witnesses and counterexamples -/

/-- The empty, acceptable declarative-memory store used in concrete runs. -/
def dm0 : DM := ⟨true, []⟩

/-- The clock record `create` writes for the start command `time = "0"`. -/
def chunk0 : Chunk := ⟨TEMPORAL, [("time", "0")]⟩

/-- The buffer of the spec's concrete scenario: `start = 1`, `growth = 2`,
`noise = 0`, slot occupied by the clock record. -/
def scenarioBuffer : TemporalBuffer := ⟨1, 2, 0, some chunk0, dm0⟩

/-- A buffer with noise coefficient 1, used to exhibit a noisy run. -/
def noisyBuffer : TemporalBuffer := ⟨1, 2, 1, some chunk0, dm0⟩

/-- A standard-logistic oracle whose second draw is negative. -/
def negSecondDraw : ℕ → ℚ := fun n => if n = 1 then -1 else 0

/-! ### Helper lemmas about the lag recurrence -/

theorem lags_zero (start mult noisescale : ℚ) (ε : ℕ → ℚ) :
    lags start mult noisescale ε 0 =
      start + logistic_noise (ε 0) (noisescale * 5 * start) := rfl

theorem lags_succ (start mult noisescale : ℚ) (ε : ℕ → ℚ) (n : ℕ) :
    lags start mult noisescale ε (n + 1) =
      mult * lags start mult noisescale ε n +
        logistic_noise (ε (n + 1)) (noisescale * mult * lags start mult noisescale ε n) := rfl

theorem lags_noiseless_zero (start mult : ℚ) (ε : ℕ → ℚ) :
    lags start mult 0 ε 0 = start := by
  simp [lags_zero, logistic_noise]

theorem lags_noiseless_succ (start mult : ℚ) (ε : ℕ → ℚ) (n : ℕ) :
    lags start mult 0 ε (n + 1) = mult * lags start mult 0 ε n := by
  simp [lags_succ, logistic_noise]

theorem lags_noiseless_pos (start mult : ℚ) (hs : 0 < start) (hm : 1 < mult)
    (ε : ℕ → ℚ) : ∀ n, 0 < lags start mult 0 ε n
  | 0 => by simpa [lags_noiseless_zero] using hs
  | n + 1 => by
      rw [lags_noiseless_succ]
      exact mul_pos (lt_trans zero_lt_one hm) (lags_noiseless_pos start mult hs hm ε n)

theorem lags_noiseless_lt_succ (start mult : ℚ) (hs : 0 < start) (hm : 1 < mult)
    (ε : ℕ → ℚ) (n : ℕ) :
    lags start mult 0 ε n < lags start mult 0 ε (n + 1) := by
  rw [lags_noiseless_succ]
  have hp := lags_noiseless_pos start mult hs hm ε n
  calc lags start mult 0 ε n = 1 * lags start mult 0 ε n := (one_mul _).symm
    _ < mult * lags start mult 0 ε n := by
        exact mul_lt_mul_of_pos_right hm hp

/-! ### Helper lemmas about runs of the `tick` generator -/

theorem tickAux_none_spec (start mult ns time : ℚ) (ε : ℕ → ℚ) :
    ∀ (fuel tc : ℕ) (prevLag : ℚ) (c : Chunk),
      (tc = 0 ∨ prevLag = lags start mult ns ε (tc - 1)) →
      tickAux start mult ns time ε none fuel tc prevLag (some c) =
        ((List.range' tc fuel).map (tickEvent start mult ns time ε),
          TickStatus.running) := by
  intro fuel
  induction fuel with
  | zero => intro tc prevLag c _; simp [tickAux]
  | succ fuel ih =>
      intro tc prevLag c h
      have hlag :
          (if tc = 0 then start + logistic_noise (ε 0) (ns * 5 * start)
            else mult * prevLag + logistic_noise (ε tc) (ns * mult * prevLag)) =
            lags start mult ns ε tc := by
        rcases h with h | h
        · subst h; simp [lags_zero]
        · rcases tc with _ | k
          · simp [lags_zero]
          · simp only [Nat.succ_sub_one] at h
            subst h
            simp [lags_succ]
      simp only [tickAux, hlag]
      rw [ih (tc + 1) (lags start mult ns ε tc)
            (Chunk.mk TEMPORAL [("time", toString tc)]) (Or.inr (by simp))]
      simp [List.range'_succ, tickEvent]

theorem tickAux_clear_spec (start mult ns time : ℚ) (ε : ℕ → ℚ) (k : ℕ) :
    ∀ (fuel tc : ℕ) (prevLag : ℚ) (c : Chunk),
      (tc = 0 ∨ prevLag = lags start mult ns ε (tc - 1)) →
      tc ≤ k → k < tc + fuel →
      tickAux start mult ns time ε (some k) fuel tc prevLag (some c) =
        ((List.range' tc (k + 1 - tc)).map (tickEvent start mult ns time ε),
          TickStatus.staleWrite) := by
  intro fuel
  induction fuel with
  | zero => intro tc prevLag c _ hle hlt; omega
  | succ fuel ih =>
      intro tc prevLag c h hle hlt
      have hlag :
          (if tc = 0 then start + logistic_noise (ε 0) (ns * 5 * start)
            else mult * prevLag + logistic_noise (ε tc) (ns * mult * prevLag)) =
            lags start mult ns ε tc := by
        rcases h with h | h
        · subst h; simp [lags_zero]
        · rcases tc with _ | j
          · simp [lags_zero]
          · simp only [Nat.succ_sub_one] at h
            subst h
            simp [lags_succ]
      rcases Nat.lt_or_ge tc k with hcase | hcase
      · have hne : ¬ ((some k : Option ℕ) = some tc) := by
          simp; omega
        simp only [tickAux, hlag, if_neg hne]
        rw [ih (tc + 1) (lags start mult ns ε tc)
              (Chunk.mk TEMPORAL [("time", toString tc)]) (Or.inr (by simp))
              (by omega) (by omega)]
        have hrange : k + 1 - tc = (k - tc) + 1 := by omega
        have hrange' : k + 1 - (tc + 1) = k - tc := by omega
        rw [hrange, hrange', List.range'_succ]
        simp [tickEvent]
      · have hk : k = tc := by omega
        subst hk
        simp [tickAux, hlag, tickEvent, List.range'_succ]

theorem scenario_lags :
    lags 1 2 0 (fun _ => 0) 0 = 1 ∧ lags 1 2 0 (fun _ => 0) 1 = 2 ∧
      lags 1 2 0 (fun _ => 0) 2 = 4 ∧ lags 1 2 0 (fun _ => 0) 3 = 8 := by
  have h0 := lags_noiseless_zero 1 2 (fun _ => 0)
  have h1 := lags_noiseless_succ 1 2 (fun _ => 0) 0
  have h2 := lags_noiseless_succ 1 2 (fun _ => 0) 1
  have h3 := lags_noiseless_succ 1 2 (fun _ => 0) 2
  rw [h0] at h1
  rw [h1] at h2
  norm_num at h2
  rw [h2] at h3
  norm_num at h3
  exact ⟨h0, by rw [h1]; norm_num, h2, h3⟩

theorem scenario_run_eq :
    scenarioBuffer.tick 0 (fun _ => 0) none 4 =
      ([⟨1, "TEMPORAL", "TEMPORAL TICK: 0"⟩, ⟨2, "TEMPORAL", "TEMPORAL TICK: 1"⟩,
        ⟨4, "TEMPORAL", "TEMPORAL TICK: 2"⟩, ⟨8, "TEMPORAL", "TEMPORAL TICK: 3"⟩],
        TickStatus.running) := by
  obtain ⟨h0, h1, h2, h3⟩ := scenario_lags
  have h := tickAux_none_spec 1 2 0 0 (fun _ => 0) 4 0 0 chunk0 (Or.inl rfl)
  have hb : scenarioBuffer.tick 0 (fun _ => 0) none 4 =
      tickAux 1 2 0 0 (fun _ => 0) none 4 0 0 (some chunk0) := rfl
  rw [hb, h]
  have hr : List.range' 0 4 = [0, 1, 2, 3] := rfl
  rw [hr]
  simp only [List.map_cons, List.map_nil, tickEvent, h0, h1, h2, h3]
  norm_num [roundtime]
  exact ⟨rfl, rfl, rfl, rfl⟩

theorem noisy_lags :
    lags 1 2 1 negSecondDraw 0 = 1 ∧ lags 1 2 1 negSecondDraw 1 = 0 := by
  have h0 : lags 1 2 1 negSecondDraw 0 = 1 := by
    rw [lags_zero]
    norm_num [logistic_noise, negSecondDraw]
  have h1 := lags_succ 1 2 1 negSecondDraw 0
  rw [h0] at h1
  refine ⟨h0, ?_⟩
  rw [h1]
  norm_num [logistic_noise, negSecondDraw]

theorem noisy_run_eq :
    noisyBuffer.tick 0 negSecondDraw none 2 =
      ([⟨1, "TEMPORAL", "TEMPORAL TICK: 0"⟩, ⟨0, "TEMPORAL", "TEMPORAL TICK: 1"⟩],
        TickStatus.running) := by
  obtain ⟨h0, h1⟩ := noisy_lags
  have h := tickAux_none_spec 1 2 1 0 negSecondDraw 2 0 0 chunk0 (Or.inl rfl)
  have hb : noisyBuffer.tick 0 negSecondDraw none 2 =
      tickAux 1 2 1 0 negSecondDraw none 2 0 0 (some chunk0) := rfl
  rw [hb, h]
  have hr : List.range' 0 2 = [0, 1] := rfl
  rw [hr]
  simp only [List.map_cons, List.map_nil, tickEvent, h0, h1]
  norm_num [roundtime]
  exact ⟨rfl, rfl⟩

/-! ### Claim theorems -/

/-- C1: for a tick run with the noise scale coefficient forced to 0, the
successive values of the `lag` variable computed by `tick` (lines 94-97,
embedded as `lags`) satisfy `lag_0 = start` (the buffer's `time_start`) and
`lag_n = mult * lag_(n-1)` exactly (`mult` being `time_mult`). -/
theorem C1_zero_noise_lag_recurrence (start mult : ℚ) (ε : ℕ → ℚ) :
    lags start mult 0 ε 0 = start ∧
      ∀ n : ℕ, lags start mult 0 ε (n + 1) = mult * lags start mult 0 ε n :=
  ⟨lags_noiseless_zero start mult ε, lags_noiseless_succ start mult ε⟩

/-- C2 counterexample: in the spec's own scenario (`start = 1`, `growth = 2`,
`noise = 0`, `current_time = 0`) the emitted event times are `1, 2, 4, 8`
(namely `current_time + lag_n`), not the cumulative `1, 3, 7, 15` the claim
states: `tick` adds each lag to the fixed argument `time`, not to the
previous event's time. -/
theorem C2_counterexample :
    (scenarioBuffer.tick 0 (fun _ => 0) none 4).1.map Event.time = [1, 2, 4, 8] ∧
      (scenarioBuffer.tick 0 (fun _ => 0) none 4).1.map Event.time ≠ [1, 3, 7, 15] := by
  have h : (scenarioBuffer.tick 0 (fun _ => 0) none 4).1.map Event.time = [1, 2, 4, 8] := by
    rw [scenario_run_eq]
    rfl
  refine ⟨h, ?_⟩
  rw [h]
  intro hc
  simp only [List.cons.injEq] at hc
  exact absurd hc.2.1 (by norm_num)

/-- C2 amended: with any noise oracle, the `n`-th Event emitted by
`tick(current_time)` is `tickEvent n`, whose time is
`roundtime (current_time + lag_n)` — the single lag `lag_n`, not the
cumulative sum; in particular, for `start = 1`, `growth = 2`, `noise = 0`
and `current_time = 0` the emitted event times are `1, 2, 4, 8` while the
slot stays occupied. -/
theorem C2_amended_event_times (b : TemporalBuffer) (time : ℚ) (ε : ℕ → ℚ)
    (fuel : ℕ) (c : Chunk) (hocc : b._data = some c) :
    (b.tick time ε none fuel).1 =
        (List.range fuel).map (tickEvent b.start b.mult b.noise time ε) ∧
      (scenarioBuffer.tick 0 (fun _ => 0) none 4).1.map Event.time = [1, 2, 4, 8] := by
  constructor
  · have h := tickAux_none_spec b.start b.mult b.noise time ε fuel 0 0 c (Or.inl rfl)
    have h2 : b.tick time ε none fuel =
        ((List.range' 0 fuel).map (tickEvent b.start b.mult b.noise time ε),
          TickStatus.running) := by
      simp only [TemporalBuffer.tick, hocc]
      exact h
    rw [h2, List.range_eq_range']
  · rw [scenario_run_eq]
    rfl

/-- C2 amended, witness at the concrete scenario. -/
theorem C2_witness :
    ((scenarioBuffer.tick 0 (fun _ => 0) none 4).1 =
        (List.range 4).map
          (tickEvent scenarioBuffer.start scenarioBuffer.mult scenarioBuffer.noise 0
            (fun _ => 0))) ∧
      (scenarioBuffer.tick 0 (fun _ => 0) none 4).1.map Event.time = [1, 2, 4, 8] :=
  C2_amended_event_times scenarioBuffer 0 (fun _ => 0) 4 chunk0 rfl

/-- C4: if the resuming environment clears the buffer slot during the
suspension that follows the emission of event `k` (i.e. between two
resumptions of a running tick sequence), the next resumption ends the
sequence: the run reports the dropped tick-advance as the non-fatal
stale-write warning (`TickStatus.staleWrite`, a normal result, not an
exception) and emits exactly the `k + 1` events numbered `0..k`, none after
the clear. -/
theorem C4_clear_terminates_with_warning (b : TemporalBuffer) (time : ℚ)
    (ε : ℕ → ℚ) (c : Chunk) (hocc : b._data = some c) (k fuel : ℕ)
    (hfuel : k < fuel) :
    (b.tick time ε (some k) fuel).2 = TickStatus.staleWrite ∧
      (b.tick time ε (some k) fuel).1.length = k + 1 := by
  have h := tickAux_clear_spec b.start b.mult b.noise time ε k fuel 0 0 c
    (Or.inl rfl) (Nat.zero_le k) (by omega)
  have h2 : b.tick time ε (some k) fuel =
      ((List.range' 0 (k + 1 - 0)).map (tickEvent b.start b.mult b.noise time ε),
        TickStatus.staleWrite) := by
    simp only [TemporalBuffer.tick, hocc]
    exact h
  rw [h2]
  simp

/-- C4, witness: clearing during the suspension after event 2 of the concrete
scenario ends the run with the warning after exactly 3 events. -/
theorem C4_witness :
    (scenarioBuffer.tick 0 (fun _ => 0) (some 2) 6).2 = TickStatus.staleWrite ∧
      (scenarioBuffer.tick 0 (fun _ => 0) (some 2) 6).1.length = 2 + 1 :=
  C4_clear_terminates_with_warning scenarioBuffer 0 (fun _ => 0) chunk0 rfl 2 6
    (by decide)

/-- C7 counterexample: emitted times are not always strictly increasing.
With `start = 1`, `growth = 2`, noise coefficient 1 and a (perfectly
possible) negative second logistic draw, the run emits times `1` then `0`,
and `1 < 0` is false, so the later of two consecutively emitted Events does
not have a strictly greater time. -/
theorem C7_counterexample :
    (noisyBuffer.tick 0 negSecondDraw none 2).1.map Event.time = [1, 0] ∧
      ¬ ((1 : ℚ) < 0) := by
  constructor
  · rw [noisy_run_eq]
    rfl
  · norm_num

/-- C7 amended: within a single run the tick indices strictly increase (the
`n`-th emitted Event names tick index `n`), and with the noise scale forced
to 0, a positive `start` and a growth factor above 1, the lags strictly
increase, so the unrounded scheduled times `current_time + lag_n` strictly
increase; a noisy run can break strict time increase (see the
counterexample), and rounding to the time resolution can collapse
sub-resolution gaps. -/
theorem C7_amended_strict_increase (b : TemporalBuffer) (time : ℚ) (ε : ℕ → ℚ)
    (c : Chunk) (hocc : b._data = some c) (hs : 0 < b.start) (hm : 1 < b.mult)
    (fuel n : ℕ) (hn : n < fuel) :
    ((b.tick time ε none fuel).1[n]?).map Event.action =
        some ("TEMPORAL TICK: " ++ toString n) ∧
      time + lags b.start b.mult 0 ε n < time + lags b.start b.mult 0 ε (n + 1) := by
  constructor
  · have h := tickAux_none_spec b.start b.mult b.noise time ε fuel 0 0 c (Or.inl rfl)
    have h2 : b.tick time ε none fuel =
        ((List.range' 0 fuel).map (tickEvent b.start b.mult b.noise time ε),
          TickStatus.running) := by
      simp only [TemporalBuffer.tick, hocc]
      exact h
    rw [h2]
    simp [List.getElem?_range', hn, tickEvent]
  · have := lags_noiseless_lt_succ b.start b.mult hs hm ε n
    linarith

/-- C7 amended, witness at the concrete scenario, consecutive events 1 and 2. -/
theorem C7_witness :
    ((scenarioBuffer.tick 0 (fun _ => 0) none 4).1[1]?).map Event.action =
        some ("TEMPORAL TICK: " ++ toString 1) ∧
      (0 : ℚ) + lags scenarioBuffer.start scenarioBuffer.mult 0 (fun _ => 0) 1 <
        0 + lags scenarioBuffer.start scenarioBuffer.mult 0 (fun _ => 0) 2 :=
  C7_amended_strict_increase scenarioBuffer 0 (fun _ => 0) chunk0 rfl
    (show (0 : ℚ) < 1 from one_pos) (show (1 : ℚ) < 2 from one_lt_two) 4 1
    (by decide)

/-- C3: for every command record, described by its resolved attribute-value
dict `mod_attr_val`: if the dict has more than one attribute, or its `time`
(start) attribute is missing or does not textually equal `"0"`, then `create`
raises `ACTRError` (returning no new state, so the slot is untouched);
otherwise `create` succeeds and the slot afterwards holds the new
temporal-typed record carrying exactly the single start attribute. -/
theorem C3_create_validation (b : TemporalBuffer) (mav : List (String × String)) :
    ((1 < mav.length ∨ TemporalBuffer.lookupAttr mav "time" ≠ some "0") →
        ∃ e, b.create mav = Except.error e) ∧
      (mav.length ≤ 1 ∧ TemporalBuffer.lookupAttr mav "time" = some "0" →
        ∃ b', b.create mav = Except.ok b' ∧
          b'._data = some (Chunk.mk TEMPORAL mav)) := by
  constructor
  · intro h
    unfold TemporalBuffer.create
    by_cases hc1 : mav.length > 1 ∨ TemporalBuffer.lookupAttr mav "time" = none
    · rw [if_pos hc1]
      exact ⟨_, rfl⟩
    · have h2 : TemporalBuffer.lookupAttr mav "time" ≠ some "0" := by
        rcases h with h | h
        · exact absurd (Or.inl h) hc1
        · exact h
      rw [if_neg hc1, if_pos h2]
      exact ⟨_, rfl⟩
  · rintro ⟨h1, h2⟩
    refine ⟨b.add (Chunk.mk TEMPORAL mav), ?_, rfl⟩
    unfold TemporalBuffer.create
    rw [if_neg (by simp [h2]; omega), if_neg (by simp [h2])]

/-- C3, witness: a start value other than `"0"` is rejected; the start
command `time = "0"` is accepted and writes the clock record. -/
theorem C3_witness :
    (∃ e, (TemporalBuffer.init 1 2 0 dm0).create [("time", "1")] = Except.error e) ∧
      (∃ b', (TemporalBuffer.init 1 2 0 dm0).create [("time", "0")] = Except.ok b' ∧
        b'._data = some (Chunk.mk TEMPORAL [("time", "0")])) :=
  ⟨(C3_create_validation (TemporalBuffer.init 1 2 0 dm0) [("time", "1")]).1
      (Or.inr (by simp [TemporalBuffer.lookupAttr])),
    (C3_create_validation (TemporalBuffer.init 1 2 0 dm0) [("time", "0")]).2
      ⟨by simp, by simp [TemporalBuffer.lookupAttr]⟩⟩

/-- C5: for every time `t`, `clear(t)` on an occupied slot removes exactly
the held record, passes that record together with `t` to the configured
declarative memory's `add` (recorded in `dm.items`), and leaves the slot
empty; `clear(t)` on an empty slot changes nothing and calls nothing. -/
theorem C5_clear_harvest (b : TemporalBuffer) (t : ℚ) :
    (∀ c, b._data = some c →
        b.clear t = { b with _data := none, dm := { b.dm with items := b.dm.items ++ [(c, t)] } }) ∧
      (b._data = none → b.clear t = b) := by
  constructor
  · intro c hc
    simp [TemporalBuffer.clear, hc]
  · intro hc
    simp [TemporalBuffer.clear, hc]

/-- C5, witness: clearing the occupied scenario buffer at time 3 harvests the
clock record; clearing an empty buffer is a no-op. -/
theorem C5_witness :
    scenarioBuffer.clear 3 = { scenarioBuffer with _data := none, dm := { scenarioBuffer.dm with items := scenarioBuffer.dm.items ++ [(chunk0, 3)] } } ∧
      (TemporalBuffer.init 1 2 0 dm0).clear 3 = TemporalBuffer.init 1 2 0 dm0 :=
  ⟨(C5_clear_harvest scenarioBuffer 3).1 chunk0 rfl,
    (C5_clear_harvest (TemporalBuffer.init 1 2 0 dm0) 3).2 rfl⟩

/-- C6 counterexample: `__init__` has no failure path, so constructing with
`time_start = -1 ≤ 0` and `time_mult = 1/2 ≤ 1` is not rejected: it returns
an ordinary buffer that stores exactly those degenerate parameters. -/
theorem C6_counterexample :
    (TemporalBuffer.init (-1) (1/2) 0 dm0).start = -1 ∧
      (TemporalBuffer.init (-1) (1/2) 0 dm0).mult = 1/2 ∧
      (TemporalBuffer.init (-1) (1/2) 0 dm0)._data = none :=
  ⟨rfl, rfl, rfl⟩

/-- C6 amended: construction performs no validation at all: any
`time_start`, `time_mult`, `time_noise` (including `time_start ≤ 0` and
`time_mult ≤ 1`) are accepted and stored unchanged, with an empty slot and
the given default harvest. -/
theorem C6_amended_no_validation (ts tm tn : ℚ) (d : DM) :
    (TemporalBuffer.init ts tm tn d).start = ts ∧
      (TemporalBuffer.init ts tm tn d).mult = tm ∧
      (TemporalBuffer.init ts tm tn d).noise = tn ∧
      (TemporalBuffer.init ts tm tn d)._data = none ∧
      (TemporalBuffer.init ts tm tn d).dm = d :=
  ⟨rfl, rfl, rfl, rfl, rfl⟩

/-- C8: for every buffer state and every argument, `retrieve` raises
`ACTRError` ("retrieving from temporal is not possible"): it never returns a
value (no `ok` result, hence also no modified buffer is ever produced). -/
theorem C8_retrieve_always_fails (b : TemporalBuffer) (oc : Chunk) :
    (∃ e, b.retrieve oc = Except.error e) ∧
      ∀ r, b.retrieve oc ≠ Except.ok r :=
  ⟨⟨_, rfl⟩, fun _ h => Except.noConfusion h⟩

/-- C8, witness at a concrete buffer and chunk. -/
theorem C8_witness :
    (∃ e, (TemporalBuffer.init 1 2 0 dm0).retrieve chunk0 = Except.error e) ∧
      ∀ r, (TemporalBuffer.init 1 2 0 dm0).retrieve chunk0 ≠ Except.ok r :=
  C8_retrieve_always_fails (TemporalBuffer.init 1 2 0 dm0) chunk0

/-- C9: assigning a `default_harvest` target that is not a possible
declarative memory raises `ACTRError` at assignment time; assigning a
compatible store succeeds, and reading `default_harvest` afterwards returns
exactly that store. -/
theorem C9_default_harvest_setter (b : TemporalBuffer) (v : DM) :
    (v.possible = false → ∃ e, b.set_default_harvest v = Except.error e) ∧
      (v.possible = true → ∃ b', b.set_default_harvest v = Except.ok b' ∧
        b'.default_harvest = v) := by
  constructor
  · intro h
    exact ⟨⟨"The default harvest set in the temporal buffer is not a possible declarative memory"⟩,
      by simp [TemporalBuffer.set_default_harvest, h]⟩
  · intro h
    exact ⟨{ b with dm := v },
      by simp [TemporalBuffer.set_default_harvest, h], rfl⟩

/-- C9, witness: an impossible store is rejected, a possible one is stored
and read back unchanged. -/
theorem C9_witness :
    (∃ e, (TemporalBuffer.init 1 2 0 dm0).set_default_harvest ⟨false, []⟩ =
        Except.error e) ∧
      (∃ b', (TemporalBuffer.init 1 2 0 dm0).set_default_harvest
            ⟨true, [(chunk0, 5)]⟩ = Except.ok b' ∧
          b'.default_harvest = ⟨true, [(chunk0, 5)]⟩) :=
  ⟨(C9_default_harvest_setter (TemporalBuffer.init 1 2 0 dm0) ⟨false, []⟩).1 rfl,
    (C9_default_harvest_setter (TemporalBuffer.init 1 2 0 dm0)
      ⟨true, [(chunk0, 5)]⟩).2 rfl⟩

/-- C10: for every buffer state — the empty-slot state included, since the
quantifier ranges over all states — the boolean conversion `__bool__`
(embedded as `bool'`) returns `True`; truthiness of the buffer object
therefore never indicates slot occupancy. -/
theorem C10_bool_always_true (b : TemporalBuffer) : b.bool' = true := rfl
